import Mathlib

/-!
Formal model of the vcforge core (`src/vcftk/main.py`): the `VCFClass` dataset
facade with its lazy variant-metadata cache, the `Genotype` codec, and the
sample-based split/subset dispatch.  Python-visible failures (ValueError,
AttributeError, NameError, IndexError, KeyError) are modelled as `Except` or
`Option` results; the mutable attribute state of a `VCFClass` instance is
threaded explicitly through a `State` record.
-/

namespace VCFTK

/-- Python exceptions that the modelled code paths can raise. -/
inductive PyErr where
  | valueError : String → PyErr
  | attributeError : String → PyErr
  | nameError : String → PyErr
  | indexError : String → PyErr
  | keyError : String → PyErr
  deriving DecidableEq

/-- Python string indexing `s[i]`: a non-negative index counts from the front,
a negative index counts from the back, and anything out of range raises
IndexError (modelled as `none`). -/
def pyStrIndex (s : String) (i : Int) : Option Char :=
  if 0 ≤ i ∧ i < (s.length : Int) then some (s.toList.getD i.toNat ' ')
  else if -(s.length : Int) ≤ i ∧ i < 0 then
    some (s.toList.getD (i + (s.length : Int)).toNat ' ')
  else none

/-- The `Genotype` value object of `main.py` (slots `alleles`, `phased`):
`alleles = li[:-1]`, `phased = li[-1]`. -/
structure Genotype where
  alleles : List Int
  phased : Int
  deriving DecidableEq

/-- `Genotype.__init__(li)`: `li[:-1]` and `li[-1]`; `li[-1]` raises IndexError
on an empty list. -/
def Genotype.ofRaw (li : List Int) : Option Genotype :=
  match li.getLast? with
  | none => none
  | some p => some ⟨li.dropLast, p⟩

/-- The generator `("0123."[a] for a in self.alleles)` as consumed by
`str.join`: each allele indexes the symbol table `"0123."`; an index outside
Python range for that 5-character string raises IndexError. -/
def mapSyms : List Int → Option (List Char)
  | [] => some []
  | a :: rest =>
    match pyStrIndex "0123." a, mapSyms rest with
    | some c, some cs => some (c :: cs)
    | _, _ => none

/-- `Genotype.__str__`: `sep = "/|"[int(self.phased)]` then
`sep.join("0123."[a] for a in self.alleles)`. -/
def Genotype.str (g : Genotype) : Option String :=
  match pyStrIndex "/|" g.phased, mapSyms g.alleles with
  | some sep, some syms =>
    some (String.intercalate (String.singleton sep) (syms.map String.singleton))
  | _, _ => none

/-- Decode a raw per-sample call and re-encode it to the display string:
`str(Genotype(li))`. -/
def genotypeEncode (li : List Int) : Option String :=
  (Genotype.ofRaw li).bind Genotype.str

/-- The character the symbol table `"0123."` yields for an in-range allele
index (with `.` as the conventional missing symbol otherwise). -/
def digitChar (a : Int) : Char :=
  if a = 0 then '0' else if a = 1 then '1' else if a = 2 then '2'
  else if a = 3 then '3' else '.'

lemma pyStrIndex_symbols_oob (a : Int) (h : 5 ≤ a) :
    pyStrIndex "0123." a = none := by
  have hlen : (("0123.".length : Nat) : Int) = 5 := by decide
  unfold pyStrIndex
  rw [hlen]
  rw [if_neg (by omega), if_neg (by omega)]

lemma mapSyms_digits (as : List Int) (h : ∀ a ∈ as, 0 ≤ a ∧ a ≤ 3) :
    mapSyms as = some (as.map digitChar) := by
  induction as with
  | nil => rfl
  | cons a rest ih =>
    have ha := h a (List.mem_cons_self a rest)
    have hsym : pyStrIndex "0123." a = some (digitChar a) := by
      obtain ⟨h0, h3⟩ := ha
      interval_cases a <;> decide
    have hrest := ih fun x hx => h x (List.mem_cons_of_mem a hx)
    simp [mapSyms, hsym, hrest]

lemma ofRaw_concat (as : List Int) (p : Int) :
    Genotype.ofRaw (as ++ [p]) = some ⟨as, p⟩ := by
  simp [Genotype.ofRaw]

/-- C6 — for every raw call whose allele indices lie in 0..3 and whose phase
flag is 0 or 1, decoding then re-encoding joins the allele digits with `|` when
phased and `/` when unphased. -/
theorem genotype_round_trip (as : List Int) (p : Int)
    (hall : ∀ a ∈ as, 0 ≤ a ∧ a ≤ 3) (hp : p = 0 ∨ p = 1) :
    genotypeEncode (as ++ [p]) =
      some (String.intercalate (if p = 1 then "|" else "/")
        (as.map fun a => String.singleton (digitChar a))) := by
  unfold genotypeEncode
  rw [ofRaw_concat]
  unfold Genotype.str
  rcases hp with hp | hp <;> subst hp
  · rw [if_neg (by norm_num : ¬((0 : Int) = 1))]
    have hsep : pyStrIndex "/|" 0 = some '/' := by decide
    simp [mapSyms_digits as hall, hsep, List.map_map, Function.comp_def,
      (by decide : String.singleton '/' = "/")]
  · rw [if_pos rfl]
    have hsep : pyStrIndex "/|" 1 = some '|' := by decide
    simp [mapSyms_digits as hall, hsep, List.map_map, Function.comp_def,
      (by decide : String.singleton '|' = "|")]

/-- C6 witness — `[0, 1, 1]` encodes to `"0|1"` and `[1, 1, 0]` to `"1/1"`. -/
theorem genotype_round_trip_witness :
    genotypeEncode [0, 1, 1] = some "0|1" ∧ genotypeEncode [1, 1, 0] = some "1/1" := by
  constructor
  · exact (genotype_round_trip [0, 1] 1 (by decide) (Or.inr rfl)).trans (by decide)
  · exact (genotype_round_trip [1, 1] 0 (by decide) (Or.inl rfl)).trans (by decide)

/-- C1 counterexample — the raw call `[2, 5, 1]` does not encode to `"2|."`:
`"0123."[5]` raises IndexError (modelled as `none`), so the claimed
missing-symbol fallback does not happen. -/
theorem genotype_oob_counterexample :
    genotypeEncode [2, 5, 1] = none ∧ genotypeEncode [2, 5, 1] ≠ some "2|." := by
  decide

/-- C1 amended — an allele index of `-1` (the conventional missing marker)
selects `.` from the end of the symbol table, but any allele index at or above
5 raises IndexError instead of producing the missing symbol: `[2, a, 1]` with
`5 ≤ a` raises, while `[2, -1, 1]` encodes to `"2|."`. -/
theorem genotype_oob_amended (a : Int) (h : 5 ≤ a) :
    genotypeEncode [2, a, 1] = none ∧ genotypeEncode [2, -1, 1] = some "2|." := by
  constructor
  · have hof : Genotype.ofRaw [2, a, 1] = some ⟨[2, a], 1⟩ := rfl
    unfold genotypeEncode
    rw [hof]
    unfold Genotype.str
    have h2 : pyStrIndex "0123." 2 = some '2' := by decide
    simp [mapSyms, h2, pyStrIndex_symbols_oob a h]
  · decide

/-- C1 amended witness — instantiated at allele index 5. -/
theorem genotype_oob_amended_witness :
    genotypeEncode [2, 5, 1] = none ∧ genotypeEncode [2, -1, 1] = some "2|." :=
  genotype_oob_amended 5 (by norm_num)

/-- Per-record summary statistics; `num_called`, `call_rate`, `aaf`,
`nucl_diversity`, `var_type` and `var_subtype` are computed by the backing
cyvcf2 record object itself, so they are carried opaquely. -/
structure StatRow where
  numCalled : Nat
  callRate : String
  aaFreq : String
  nuclDiversity : String
  varType : String
  varSubtype : String
  deriving DecidableEq

/-- One record of the backing variant-call stream, with the fields the
modelled code paths read. -/
structure Record where
  chrom : String
  pos : Nat
  refAllele : String
  altAllele : String
  idField : String
  csq : Option String
  stats : StatRow
  deriving DecidableEq

/-- One row of the variant metadata table. -/
structure MetaRow where
  id : String
  chrom : String
  pos : Nat
  refAllele : String
  altAllele : String
  csq : Option String
  deriving DecidableEq

/-- A pandas DataFrame of variant metadata: column labels, rows in stream
order, and the row index labels. -/
structure MetaTable where
  cols : List String
  rows : List MetaRow
  index : List String
  deriving DecidableEq

/-- Pandas `set_index("ID", drop=False)`: the index becomes the ID column and
the column itself is kept. -/
def MetaTable.setIndexID (t : MetaTable) : MetaTable :=
  { t with index := t.rows.map fun r => r.id }

/-- Pandas `col.duplicated().any()`: true exactly when the column has a
repeated value. -/
def hasDuplicatedAny (l : List String) : Bool :=
  decide (¬ l.Nodup)

/-- One row of the sample-attribute table, keyed by sample identifier. -/
structure SampleRow where
  sid : String
  attrs : List (String × String)
  deriving DecidableEq

/-- A Python Warning object (only ever constructed, see `variantsGet`). -/
structure PyWarning where
  message : String
  deriving DecidableEq

/-- The mutable attribute state of a `VCFClass` instance: the backing file
(`source`), the current forward-only iterator position of `self.vcf`
(`remaining`), the sample roster and sample-attribute table, the CSQ header
description, the lazily built caches `_variants_` and `_var_ids_`, the
warnings actually surfaced to the caller, and a count of full stream drains
(instrumentation for the scan-once property). -/
structure State where
  source : List Record
  remaining : List Record
  samples : List String
  sampleInfo : List SampleRow
  csqDescription : String
  varCache : Option MetaTable
  varIdsAttr : Option (List String)
  surfacedWarnings : List PyWarning
  scanCount : Nat
  deriving DecidableEq

/-- `reset_vcf_iterator`: re-open the VCF at its path (iterator back to the
start) and re-apply the sample restriction. -/
def reset_vcf_iterator (st : State) : State :=
  { st with remaining := st.source }

/-- Modelled from the spec: `get_variants_metadata` (imported from
`vcftk.parsing`, which is not under src) drains the record stream from its
current position and returns a table of positional and annotation metadata,
one row per record in stream order, including an `ID` column; columns per
spec section 3 (`variant_metadata`), with the info-derived CSQ column present
when the records carry that annotation. -/
def get_variants_metadata (recs : List Record) : MetaTable :=
  { cols := ["ID", "CHROM", "POS", "REF", "ALT"]
      ++ (if recs.any fun r => r.csq.isSome then ["CSQ"] else [])
  , rows := recs.map fun r =>
      { id := r.idField, chrom := r.chrom, pos := r.pos,
        refAllele := r.refAllele, altAllele := r.altAllele, csq := r.csq }
  , index := (List.range recs.length).map toString }

/-- The message of the duplicate-ID warning in `variants` and `var_info`. -/
def warnDupMsg : String :=
  "There are duplicate / empty variant IDs - you must create unique IDs before proceeding, or problems will arise"

/-- The `variants` property: on first access build the metadata table from the
stream, check the ID column for duplicates, cache the table indexed by ID;
on every access (cached or not) reset the stream before returning. -/
def variantsGet (st : State) : MetaTable × State :=
  match st.varCache with
  | some t => (t, reset_vcf_iterator st)
  | none =>
    let var_metadata := get_variants_metadata st.remaining
    -- `Warning(msg)` in the source is a bare expression statement: the
    -- Warning object is constructed and immediately discarded — it is never
    -- raised and never passed to warnings.warn, so nothing is appended to
    -- the surfaced warnings.
    let _constructed : Option PyWarning :=
      if hasDuplicatedAny (var_metadata.rows.map fun r => r.id)
      then some ⟨warnDupMsg⟩ else none
    let t := var_metadata.setIndexID
    let built : State :=
      { st with varCache := some t, remaining := [], scanCount := st.scanCount + 1 }
    (t, reset_vcf_iterator built)

/-- The `var_ids` property: reads `self._variants_.index` directly — it does
not trigger the lazy build, so it raises AttributeError when the metadata
cache has not been built; it stores the list in `self._var_ids_`. -/
def varIdsGet (st : State) : Except PyErr (List String) × State :=
  match st.varCache with
  | none =>
    (Except.error (PyErr.attributeError "VCFClass object has no attribute _variants_"), st)
  | some t => (Except.ok t.index, { st with varIdsAttr := some t.index })

/-- Iterated accesses to the `variants` property: `variantsIter n st` performs
`n + 1` successive accesses and returns the last table with the final state. -/
def variantsIter : Nat → State → MetaTable × State
  | 0, st => variantsGet st
  | n + 1, st => variantsIter n (variantsGet st).2

/-- Modelled from the spec: `setup` delegates to `setup_samples_and_vcf`
(`vcftk.parsing`, not under src), which per section 6 returns a facade whose
roster comes from the given sample table, with a freshly opened stream and an
unbuilt cache. -/
def setupFacade (source : List Record) (csqDesc : String) (group : List SampleRow) : State :=
  { source := source, remaining := source,
    samples := group.map fun r => r.sid, sampleInfo := group,
    csqDescription := csqDesc, varCache := none, varIdsAttr := none,
    surfacedWarnings := [], scanCount := 0 }

/-- The grouping key of a sample row for the given columns; `none` when an
attribute is missing. -/
def groupKey (columns : List String) (r : SampleRow) : Option (List String) :=
  columns.mapM fun c => r.attrs.lookup c

/-- Modelled from the spec: pandas `groupby` per section 4.6 — group the
sample rows by the values of the given columns, omitting rows with a missing
key. -/
def groupBySamples (columns : List String) (rows : List SampleRow) :
    List (List String × List SampleRow) :=
  ((rows.filterMap (groupKey columns)).dedup).map fun k =>
    (k, rows.filter fun r => decide (groupKey columns r = some k))

/-- `_split_by_samples`: one brand-new facade per group of the
sample-attribute table. -/
def split_by_samples (st : State) (columns : List String) :
    List (List String × State) :=
  (groupBySamples columns st.sampleInfo).map fun g =>
    (g.1, setupFacade st.source st.csqDescription g.2)

/-- `split(by, columns)`: dispatch on the string discriminator; the
`"variants"` mode raises ValueError, any other unrecognized mode falls off
the `if`/`elif` chain and returns Python `None` (modelled `Except.ok none`). -/
def split (st : State) (mode : String) (columns : List String) :
    Except PyErr (Option (List (List String × State))) :=
  if mode = "samples" then Except.ok (some (split_by_samples st columns))
  else if mode = "variants" then Except.error (PyErr.valueError "Not yet implemented...")
  else Except.ok none

/-- `_subset_samples`: `self.sample_info.loc[ids]` raises KeyError when a
label is absent, then a new facade is built over the selected rows. -/
def subset_samples (st : State) (ids : List String) : Except PyErr State :=
  if ids.all fun i => st.sampleInfo.any fun r => r.sid = i then
    Except.ok (setupFacade st.source st.csqDescription
      (ids.filterMap fun i => st.sampleInfo.find? fun r => r.sid = i))
  else Except.error (PyErr.keyError "label not in sample_info index")

/-- `subset(what, ids)`: dispatch on the string discriminator; the
`"variants"` mode raises ValueError, any other unrecognized mode falls off
the `if`/`elif` chain and returns Python `None`. -/
def subset (st : State) (what : String) (ids : List String) :
    Except PyErr (Option State) :=
  if what = "samples" then
    match subset_samples st ids with
    | Except.ok s => Except.ok (some s)
    | Except.error e => Except.error e
  else if what = "variants" then Except.error (PyErr.valueError "Not implemented yet...")
  else Except.ok none

/-- The per-variant statistics table: rows keyed by variant ID. -/
abbrev StatsTable := List (String × StatRow)

/-- `get_var_stats(add_to_info)`: zip the stream with `self.var_ids` (a
property read that raises AttributeError when the metadata cache is unbuilt),
collect the six per-record summary fields, and then — when `add_to_info` is
true — execute `self.variants = pd.concat([self.variants, var_stats], axis=1)`:
the right-hand side is evaluated first (a cached `variants` access, which
resets the stream), after which the assignment raises AttributeError because
`variants` is a property with no setter; the reset on line 265 and the
`return` are never reached in that branch. -/
def get_var_stats (st : State) (add_to_info : Bool) :
    Except PyErr StatsTable × State :=
  match st.varCache with
  | none =>
    -- the `self.var_ids` read inside `zip` raises AttributeError
    (Except.error (PyErr.attributeError "VCFClass object has no attribute _variants_"), st)
  | some t =>
    let ids := t.index
    let st1 : State := { st with varIdsAttr := some ids }
    let var_stats : StatsTable :=
      (st1.remaining.zip ids).map fun p => (p.2, p.1.stats)
    let st2 : State := { st1 with remaining := st1.remaining.drop ids.length }
    if add_to_info then
      let rhs := variantsGet st2
      (Except.error (PyErr.attributeError "property variants of VCFClass object has no setter"), rhs.2)
    else
      (Except.ok var_stats, reset_vcf_iterator st2)

/-- Python `str.split` with a one-character separator, on character lists:
splitting keeps empty pieces, and the empty string yields one empty piece. -/
def splitOnChar (c : Char) : List Char → List (List Char)
  | [] => [[]]
  | x :: xs =>
    match splitOnChar c xs, decide (x = c) with
    | rest, true => [] :: rest
    | [], false => [[x]]
    | r :: rs, false => (x :: r) :: rs

/-- Python `str.split(sep)` for a one-character separator. -/
def pySplit (s : String) (c : Char) : List String :=
  (splitOnChar c s.toList).map fun l => String.mk l

/-- Python `str.strip` with a quote character: drop leading and trailing
double-quote characters. -/
def stripQuoteChars (s : String) : String :=
  let l := s.toList.dropWhile fun c => c = '"'
  String.mk ((l.reverse.dropWhile fun c => c = '"').reverse)

/-- The CSQ sub-field schema:
`vcf.get_header_type("CSQ")["Description"].split(" ")[6].strip(quote).split(pipe)`;
the list indexing raises IndexError when the description has fewer words. -/
def csqFieldSchema (desc : String) : Except PyErr (List String) :=
  match (pySplit desc ' ').get? 6 with
  | none => Except.error (PyErr.indexError "list index out of range")
  | some w => Except.ok (pySplit (stripQuoteChars w) '|')

/-- `self.variants["CSQ"].str.split(",").explode()`: one (variant ID,
sub-record) pair per comma-separated piece; a missing CSQ cell stays a single
missing entry. -/
def explodeCSQ (t : MetaTable) : List (String × Option String) :=
  t.rows.flatMap fun r =>
    match r.csq with
    | none => [(r.id, none)]
    | some s => (pySplit s ',').map fun piece => (r.id, some piece)

/-- `csq_data.str.split(pipe, expand=True)`: split each sub-record on pipes. -/
def splitPipes (l : List (String × Option String)) : List (String × List String) :=
  l.map fun p => (p.1, match p.2 with | none => [] | some s => pySplit s '|')

/-- Result rows of `extract_vep_annotations`: variant ID with sub-field values. -/
abbrev VepTable := List (String × List String)

/-- The column count of `csq_data.str.split(pipe, expand=True)`: pandas makes
one column per piece of the widest row, padding shorter rows; a missing
(NaN) cell is kept as a single padded cell, so it contributes width 1. -/
def expandWidth (l : List (String × Option String)) : Nat :=
  (l.map fun p =>
    match p.2 with
    | none => 1
    | some s => (pySplit s '|').length).foldr max 0

/-- `extract_vep_annotations(add_to_info)`: raises ValueError when `"CSQ"`
is not among the metadata columns; otherwise reads the header schema and
explodes and pipe-splits the annotation strings. Then
`vep_annotations.columns = csq_info` raises pandas's length-mismatch
ValueError when the expanded column count differs from the header schema
length; when the widths match, the next line
`vep_annotations.replace("", np.nan)` raises NameError — the module imports
pandas but never numpy, so the name `np` is undefined — before the
deduplication, the optional merge, and the `return` are reached. -/
def extract_vep_annotations (st : State) (add_to_info : Bool) :
    Except PyErr VepTable × State :=
  let first := variantsGet st
  if "CSQ" ∈ first.1.cols then
    match csqFieldSchema first.2.csqDescription with
    | Except.error e => (Except.error e, first.2)
    | Except.ok csq_info =>
      let second := variantsGet first.2
      let csq_data := explodeCSQ second.1
      let vep := splitPipes csq_data
      if expandWidth csq_data = csq_info.length then
        let _unused := (vep, add_to_info)
        (Except.error (PyErr.nameError "name np is not defined"), second.2)
      else
        (Except.error (PyErr.valueError
          "Length mismatch: expected axis does not match new labels"), second.2)
  else
    (Except.error (PyErr.valueError
      "CSQ column not found in variants. This column is required for VEP annotations. Consider parsing VCF with add_info=True"), first.2)

/-- A concrete statistics row for the fixtures. -/
def statA : StatRow :=
  ⟨3, "1.0", "0.5", "0.4", "snp", "ts"⟩

/-- Fixture record with ID `v1` and a two-transcript CSQ annotation. -/
def recA : Record :=
  { chrom := "1", pos := 100, refAllele := "A", altAllele := "T",
    idField := "v1", csq := some "A|1,B|2", stats := statA }

/-- Fixture record with the duplicate ID `v1`. -/
def recB : Record :=
  { chrom := "1", pos := 200, refAllele := "C", altAllele := "G",
    idField := "v1", csq := some "C|3", stats := statA }

/-- Fixture record with ID `v3`. -/
def recC : Record :=
  { chrom := "2", pos := 300, refAllele := "T", altAllele := "A",
    idField := "v3", csq := some "D|4", stats := statA }

/-- Fixture sample-attribute table with two samples in two groups. -/
def sampleRowsFix : List SampleRow :=
  [⟨"s1", [("group", "A")]⟩, ⟨"s2", [("group", "B")]⟩]

/-- Fixture CSQ header description with sub-schema `Gene|Rank`. -/
def csqDescFix : String :=
  "Consequence annotations from Ensembl VEP. Format: Gene|Rank"

/-- A freshly constructed facade over three records. -/
def st0 : State := setupFacade [recA, recB, recC] csqDescFix sampleRowsFix

/-- The metadata table `st0` builds on first access. -/
def tBuilt : MetaTable := (variantsGet st0).1

/-- The facade state after the first `variants` access. -/
def stBuilt : State := (variantsGet st0).2

lemma variantsGet_cached (st : State) (t : MetaTable) (h : st.varCache = some t) :
    variantsGet st = (t, reset_vcf_iterator st) := by
  unfold variantsGet
  rw [h]

lemma variantsGet_fresh (st : State) (h : st.varCache = none) :
    variantsGet st =
      ((get_variants_metadata st.remaining).setIndexID,
       { st with varCache := some ((get_variants_metadata st.remaining).setIndexID),
                 remaining := st.source,
                 scanCount := st.scanCount + 1 }) := by
  unfold variantsGet reset_vcf_iterator
  rw [h]

lemma reset_of_at_start (s : State) (hr : s.remaining = s.source) :
    reset_vcf_iterator s = s := by
  cases s
  simp_all [reset_vcf_iterator]

lemma variantsGet_of_built (s : State) (t : MetaTable) (h : s.varCache = some t)
    (hr : s.remaining = s.source) : variantsGet s = (t, s) := by
  rw [variantsGet_cached s t h, reset_of_at_start s hr]

lemma variantsIter_built (n : Nat) (s : State) (t : MetaTable) (h : s.varCache = some t)
    (hr : s.remaining = s.source) : variantsIter n s = (t, s) := by
  induction n with
  | zero => exact variantsGet_of_built s t h hr
  | succ m ih =>
    show variantsIter m (variantsGet s).2 = (t, s)
    rw [variantsGet_of_built s t h hr]
    exact ih

lemma variantsIter_fresh (st : State) (n : Nat) (h : st.varCache = none) :
    variantsIter n st = variantsGet st := by
  cases n with
  | zero => rfl
  | succ m =>
    show variantsIter m (variantsGet st).2 = variantsGet st
    rw [variantsGet_fresh st h]
    exact variantsIter_built m _ _ rfl rfl

/-- C7 — accessing the `variants` property any number of times yields the
same table and final state as accessing it once (so in particular the same
row count), the stream is drained exactly once (on the first access), and
every access — cached accesses included — leaves the stream reset to the
start. `variantsIter n` performs `n + 1` accesses. -/
theorem variants_repeat_access (st : State) (n : Nat) (h : st.varCache = none) :
    variantsIter n st = variantsIter 0 st
  ∧ (variantsIter n st).2.scanCount = st.scanCount + 1
  ∧ ∀ s : State, (variantsGet s).2.remaining = s.source := by
  refine ⟨?_, ?_, fun s => ?_⟩
  · rw [variantsIter_fresh st n h]
    rfl
  · rw [variantsIter_fresh st n h, variantsGet_fresh st h]
  · cases hc : s.varCache with
    | some t =>
      rw [variantsGet_cached s t hc]
      rfl
    | none => rw [variantsGet_fresh s hc]

/-- C2 — on a facade with built metadata, `get_var_stats(add_to_info=True)`
raises AttributeError at `self.variants = pd.concat(...)` because `variants`
is a read-only property; no statistics table is returned (the cached table is
also left unchanged). -/
theorem get_var_stats_add_to_info_attribute_error (st : State) (t : MetaTable)
    (h : st.varCache = some t) :
    (get_var_stats st true).1 =
      Except.error (PyErr.attributeError "property variants of VCFClass object has no setter")
  ∧ (get_var_stats st true).2.varCache = some t := by
  have h2 : ∀ s2 : State, s2.varCache = some t →
      (variantsGet s2).2.varCache = some t := by
    intro s2 hs2
    rw [variantsGet_cached s2 t hs2]
    exact hs2
  unfold get_var_stats
  rw [h]
  exact ⟨rfl, h2 _ rfl⟩

/-- C4 counterexample — on a freshly constructed facade the very first access
to `var_ids` does not build the metadata table: it raises AttributeError
(reading the absent `_variants_` attribute) and leaves the state untouched
(no stream drain, no reset). -/
theorem var_ids_first_access_counterexample :
    (varIdsGet st0).1 =
      Except.error (PyErr.attributeError "VCFClass object has no attribute _variants_")
  ∧ (varIdsGet st0).2 = st0 :=
  ⟨rfl, rfl⟩

/-- C4 amended — `var_ids` never triggers the lazy build: on a facade whose
metadata cache is unbuilt it raises AttributeError and changes nothing, and
on a facade whose cache is built it returns the cached stream-order ID
sequence without scanning or resetting the stream. -/
theorem var_ids_requires_built_cache :
    (∀ st : State, st.varCache = none →
      varIdsGet st =
        (Except.error (PyErr.attributeError "VCFClass object has no attribute _variants_"), st))
  ∧ (∀ (st : State) (t : MetaTable), st.varCache = some t →
      (varIdsGet st).1 = Except.ok t.index
      ∧ (varIdsGet st).2.scanCount = st.scanCount
      ∧ (varIdsGet st).2.remaining = st.remaining) := by
  constructor
  · intro st h
    unfold varIdsGet
    rw [h]
  · intro st t h
    unfold varIdsGet
    rw [h]
    exact ⟨rfl, rfl, rfl⟩

/-- C5 — a metadata build over a stream whose derived ID column contains
duplicates completes normally: the table is cached with the duplicate IDs
preserved verbatim, and no warning is surfaced to the caller (the source only
constructs a `Warning` object and discards it). -/
theorem duplicate_ids_warning_not_surfaced (st : State)
    (hcache : st.varCache = none)
    (hdup : hasDuplicatedAny (st.remaining.map fun r => r.idField) = true) :
    (variantsGet st).2.surfacedWarnings = st.surfacedWarnings
  ∧ (variantsGet st).2.varCache = some (variantsGet st).1
  ∧ (variantsGet st).1.index = st.remaining.map fun r => r.idField := by
  rw [variantsGet_fresh st hcache]
  refine ⟨rfl, rfl, ?_⟩
  simp [MetaTable.setIndexID, get_variants_metadata, List.map_map, Function.comp_def]

/-- C3 — on a facade whose metadata has a CSQ column and whose exploded
sub-record width matches the header schema length (so the column assignment
on main.py line 323 passes), `extract_vep_annotations` raises NameError
(`np` is never imported) instead of returning the exploded annotation rows. -/
theorem extract_vep_name_error (st : State) (t : MetaTable) (fields : List String)
    (h : st.varCache = some t) (hcsq : "CSQ" ∈ t.cols)
    (hdesc : csqFieldSchema st.csqDescription = Except.ok fields)
    (hw : expandWidth (explodeCSQ t) = fields.length) :
    (extract_vep_annotations st false).1 =
      Except.error (PyErr.nameError "name np is not defined") := by
  simp [extract_vep_annotations, variantsGet, reset_vcf_iterator, h, hcsq, hdesc, hw]

/-- C10 — `extract_vep_annotations(add_to_info=True)` on a facade whose cached
metadata contains CSQ and whose exploded sub-record width matches the header
schema length leaves the cached table unchanged (CSQ still present): the call
raises NameError before any drop/merge, and no code path assigns to the
cache. -/
theorem extract_vep_add_to_info_cache_unchanged (st : State) (t : MetaTable)
    (fields : List String)
    (h : st.varCache = some t) (hcsq : "CSQ" ∈ t.cols)
    (hdesc : csqFieldSchema st.csqDescription = Except.ok fields)
    (hw : expandWidth (explodeCSQ t) = fields.length) :
    (extract_vep_annotations st true).2.varCache = some t
  ∧ "CSQ" ∈ t.cols
  ∧ (extract_vep_annotations st true).1 =
      Except.error (PyErr.nameError "name np is not defined") := by
  refine ⟨?_, hcsq, ?_⟩ <;>
    simp [extract_vep_annotations, variantsGet, reset_vcf_iterator, h, hcsq, hdesc, hw]

/-- C8 — `split(by="variants")` and `subset(what="variants")` both raise an
explicit not-implemented ValueError; neither silently no-ops nor returns a
facade. -/
theorem split_subset_variants_not_implemented :
    (∀ (st : State) (columns : List String),
      split st "variants" columns =
        Except.error (PyErr.valueError "Not yet implemented..."))
  ∧ (∀ (st : State) (ids : List String),
      subset st "variants" ids =
        Except.error (PyErr.valueError "Not implemented yet...")) := by
  constructor <;> intro st l <;> rfl

/-- C9 — `split` and `subset` with a discriminator string other than
`"samples"` or `"variants"` fall off the `if`/`elif` chain: they return
Python `None` without raising and without dispatching any work. -/
theorem unknown_mode_returns_none (mode : String)
    (h1 : mode ≠ "samples") (h2 : mode ≠ "variants") :
    (∀ (st : State) (columns : List String), split st mode columns = Except.ok none)
  ∧ (∀ (st : State) (ids : List String), subset st mode ids = Except.ok none) := by
  constructor <;> intro st l <;> simp [split, subset, h1, h2]

/-- C7 witness — three accesses on the fixture facade behave as one. -/
theorem variants_repeat_access_witness :
    variantsIter 2 st0 = variantsIter 0 st0
  ∧ (variantsIter 2 st0).2.scanCount = st0.scanCount + 1 :=
  ⟨(variants_repeat_access st0 2 rfl).1, (variants_repeat_access st0 2 rfl).2.1⟩

/-- C2 witness — instantiated on the built fixture facade. -/
theorem get_var_stats_attribute_error_witness :
    (get_var_stats stBuilt true).1 =
      Except.error (PyErr.attributeError "property variants of VCFClass object has no setter")
  ∧ (get_var_stats stBuilt true).2.varCache = some tBuilt :=
  get_var_stats_add_to_info_attribute_error stBuilt tBuilt rfl

/-- C4 witness — AttributeError on the fresh fixture facade; cached IDs after
a `variants` access. -/
theorem var_ids_requires_built_cache_witness :
    varIdsGet st0 =
      (Except.error (PyErr.attributeError "VCFClass object has no attribute _variants_"), st0)
  ∧ (varIdsGet stBuilt).1 = Except.ok tBuilt.index :=
  ⟨var_ids_requires_built_cache.1 st0 rfl,
   (var_ids_requires_built_cache.2 stBuilt tBuilt rfl).1⟩

/-- C5 witness — the fixture stream has the duplicate ID `v1`. -/
theorem duplicate_ids_warning_not_surfaced_witness :
    (variantsGet st0).2.surfacedWarnings = st0.surfacedWarnings
  ∧ (variantsGet st0).2.varCache = some (variantsGet st0).1
  ∧ (variantsGet st0).1.index = st0.remaining.map fun r => r.idField :=
  duplicate_ids_warning_not_surfaced st0 rfl (by decide)

/-- C3 witness — the fixture facade carries two-field CSQ annotations and the
`Gene|Rank` header schema, so the expanded width matches. -/
theorem extract_vep_name_error_witness :
    (extract_vep_annotations stBuilt false).1 =
      Except.error (PyErr.nameError "name np is not defined") :=
  extract_vep_name_error stBuilt tBuilt ["Gene", "Rank"] rfl (by decide) rfl
    (by decide)

/-- C10 witness — instantiated on the built fixture facade. -/
theorem extract_vep_cache_unchanged_witness :
    (extract_vep_annotations stBuilt true).2.varCache = some tBuilt
  ∧ "CSQ" ∈ tBuilt.cols
  ∧ (extract_vep_annotations stBuilt true).1 =
      Except.error (PyErr.nameError "name np is not defined") :=
  extract_vep_add_to_info_cache_unchanged stBuilt tBuilt ["Gene", "Rank"]
    rfl (by decide) rfl (by decide)

/-- C9 witness — the unrecognized mode `"foo"` on the fixture facade. -/
theorem unknown_mode_returns_none_witness :
    split st0 "foo" [] = Except.ok none ∧ subset st0 "foo" [] = Except.ok none :=
  ⟨(unknown_mode_returns_none "foo" (by decide) (by decide)).1 st0 [],
   (unknown_mode_returns_none "foo" (by decide) (by decide)).2 st0 []⟩

end VCFTK
